import Mathlib

/-!
Shallow embedding of `custom_components/goodwe/validators.py`: a streaming
sensor-value validator for GoodWe inverter readings.  Python floats are
modelled by `ℚ` (with a separate constructor for the non-finite values
NaN/±Inf), Python dicts by association lists in insertion order (updating an
existing key in place, appending a fresh key at the end, exactly as CPython
dicts behave), and the mutating methods by explicit state passing on a
`SensorValidator` structure.
-/

namespace Goodwe

/-- Python dict read `d[k]` / `k in d`: first binding of `k`, if any. -/
def dict_get {α : Type} (d : List (String × α)) (k : String) : Option α :=
  match d with
  | [] => none
  | (k', v) :: rest => if k' = k then some v else dict_get rest k

/-- Python dict write `d[k] = v`: replace the binding in place, or append. -/
def dict_set {α : Type} (d : List (String × α)) (k : String) (v : α) :
    List (String × α) :=
  match d with
  | [] => [(k, v)]
  | (k', v') :: rest => if k' = k then (k, v) :: rest else (k', v') :: dict_set rest k v

/-- Recursive helper for Python's `str.startswith`: does `pat` occur at the
head of `s` (as character lists)? -/
def list_starts (pat s : List Char) : Bool :=
  match pat, s with
  | [], _ => true
  | _ :: _, [] => false
  | a :: ps, b :: ss => a == b && list_starts ps ss

/-- Helper for Python's `pat in s` substring test on character lists. -/
def list_contains_sub (pat s : List Char) : Bool :=
  list_starts pat s ||
    match s with
    | [] => false
    | _ :: rest => list_contains_sub pat rest

/-- Python `s.startswith(pat)`. -/
def str_starts (s pat : String) : Bool :=
  list_starts pat.toList s.toList

/-- Python `pat in s` (substring containment). -/
def str_contains (s pat : String) : Bool :=
  list_contains_sub pat.toList s.toList

/-- A raw sensor value: Python's `None`, `bool`, `str` (or other non-numeric
passthrough types), a finite number (`int`/`float`, modelled by `ℚ`), or a
non-finite float (NaN, +Inf, -Inf; all three behave identically in the
validator: they match no Modbus sentinel and fail `math.isfinite`). -/
inductive Value where
  | null : Value
  | bool (b : Bool) : Value
  | text (s : String) : Value
  | num (q : ℚ) : Value
  | nonfinite : Value
deriving DecidableEq, Repr

/-- Constant `MODBUS_ERROR_VALUES`: the Python set {0xFFFF, 0x7FFF, 0x8000, -32768,
65535} has four distinct elements (0xFFFF = 65535). -/
def MODBUS_ERROR_VALUES : List ℚ := [65535, 32767, 32768, -32768]

/-- Constant `DEFAULT_RANGES`: unit → (min, max). -/
def DEFAULT_RANGES : List (String × (ℚ × ℚ)) :=
  [("V", (0, 1000)),
   ("A", (-150, 150)),
   ("W", (-50000, 50000)),
   ("kWh", (0, 100000)),
   ("VA", (-50000, 50000)),
   ("var", (-50000, 50000)),
   ("C", (-40, 100)),
   ("Hz", (45, 65)),
   ("%", (0, 100)),
   ("h", (0, 1000000))]

/-- Constant `SENSOR_SPECIFIC_RANGES`: sensor id → (min, max). -/
def SENSOR_SPECIFIC_RANGES : List (String × (ℚ × ℚ)) :=
  [("vgrid", (180, 280)),
   ("vgrid2", (180, 280)),
   ("vgrid3", (180, 280)),
   ("vbattery1", (40, 600)),
   ("vpv1", (0, 1000)),
   ("vpv2", (0, 1000)),
   ("vpv3", (0, 1000)),
   ("vpv4", (0, 1000)),
   ("fgrid", (49, 61)),
   ("fgrid2", (49, 61)),
   ("fgrid3", (49, 61)),
   ("battery_soc", (0, 100)),
   ("e_day", (0, 200)),
   ("e_load_day", (0, 500))]

/-- Constant `MONOTONIC_INCREASING_SENSORS`. -/
def MONOTONIC_INCREASING_SENSORS : List String :=
  ["e_total", "e_bat_charge_total", "e_bat_discharge_total",
   "meter_e_total_exp", "meter_e_total_imp", "h_total"]

/-- Which range tier produced an out-of-range rejection (the source encodes
this in the reason string: custom / sensor-specific / unit range). -/
inductive RangeTier where
  | custom : RangeTier
  | sensorSpecific : RangeTier
  | unitBased (u : String) : RangeTier
deriving DecidableEq, Repr

/-- Rejection reason, carrying the data the source interpolates into its
reason strings. -/
inductive Reason where
  | modbusError : Reason
  | nonFinite : Reason
  | outOfRange (tier : RangeTier) (min_val max_val : ℚ) : Reason
  | monotonicRegression (last_value value : ℚ) : Reason
  | outlier : Reason
deriving DecidableEq, Repr

/-- One entry of `ValidationStats.recent_failures`. -/
structure Failure where
  sensor_id : String
  value : Value
  reason : Reason
deriving DecidableEq, Repr

/-- Class `ValidationStats`: per-sensor rejection counters (a dict read with
`.get(sensor_id, 0)`) and the bounded recent-failure list. -/
structure ValidationStats where
  rejected_count : List (String × Nat)
  recent_failures : List Failure
  max_recent_failures : Nat
deriving DecidableEq, Repr

/-- Constructor `ValidationStats.__init__`. -/
def ValidationStats.init : ValidationStats :=
  { rejected_count := []
    recent_failures := []
    max_recent_failures := 50 }

/-- Method `ValidationStats.record_rejection`: bump the counter, append the failure,
pop the oldest entry if over capacity. -/
def ValidationStats.record_rejection (st : ValidationStats) (sensor_id : String)
    (value : Value) (reason : Reason) : ValidationStats :=
  let rc := dict_set st.rejected_count sensor_id
    ((dict_get st.rejected_count sensor_id).getD 0 + 1)
  let fs := st.recent_failures ++ [⟨sensor_id, value, reason⟩]
  let fs := if fs.length > st.max_recent_failures then fs.drop 1 else fs
  { st with rejected_count := rc, recent_failures := fs }

/-- One per-sensor metadata entry; only its `"unit"` field is consulted
(`sensor_metadata[sensor_id].get("unit")`), so other attributes are elided. -/
structure MetaEntry where
  unit : Option String
deriving DecidableEq, Repr

/-- The optional per-cycle `sensor_metadata` mapping: sensor id → entry. -/
abbrev Metadata := List (String × MetaEntry)

/-- Class `SensorValidator`: instance state. -/
structure SensorValidator where
  enable_validation : Bool
  outlier_sensitivity : ℚ
  custom_ranges : List (String × (ℚ × ℚ))
  stats : ValidationStats
  value_history : List (String × List ℚ)
  max_history : Nat
  last_monotonic_values : List (String × ℚ)
deriving DecidableEq, Repr

/-- Constructor `SensorValidator.__init__` (the `custom_ranges or {}` default collapses
`None` and the empty dict, so the argument is the resulting dict). -/
def SensorValidator.init (enable_validation : Bool) (outlier_sensitivity : ℚ)
    (custom_ranges : List (String × (ℚ × ℚ))) : SensorValidator :=
  { enable_validation := enable_validation
    outlier_sensitivity := outlier_sensitivity
    custom_ranges := custom_ranges
    stats := ValidationStats.init
    value_history := []
    max_history := 10
    last_monotonic_values := [] }

/-- The default validator `SensorValidator()`. -/
def init_validator : SensorValidator :=
  SensorValidator.init true 5 []

/-- Method `_is_modbus_error`: exact membership, or within 0.01 of a sentinel. -/
def is_modbus_error (value : ℚ) : Bool :=
  MODBUS_ERROR_VALUES.any (fun e => value == e) ||
    MODBUS_ERROR_VALUES.any (fun e => |value - e| < 1 / 100)

/-- The unit-inference chain of `_get_sensor_unit` (lines 256-272): ordered
substring / startswith tests on the sensor id. -/
def infer_unit (sensor_id : String) : Option String :=
  if str_contains sensor_id "voltage" || str_starts sensor_id "v" then some "V"
  else if str_contains sensor_id "current" || str_starts sensor_id "i" then some "A"
  else if str_contains sensor_id "power" || str_starts sensor_id "p" then some "W"
  else if str_contains sensor_id "energy" || str_starts sensor_id "e_" then some "kWh"
  else if str_contains sensor_id "temp" || str_contains sensor_id "temperature" then some "C"
  else if str_contains sensor_id "freq" || str_starts sensor_id "f" then some "Hz"
  else if str_contains sensor_id "soc" || str_contains sensor_id "%" then some "%"
  else none

/-- Method `_get_sensor_unit`: metadata entry's `"unit"` field when the mapping is
supplied and holds the id (the Python truthiness test of an empty dict
coincides with the membership test), otherwise identifier-based inference. -/
def get_sensor_unit (sensor_id : String) (sensor_metadata : Option Metadata) :
    Option String :=
  match sensor_metadata with
  | some m =>
    match dict_get m sensor_id with
    | some entry => entry.unit
    | none => infer_unit sensor_id
  | none => infer_unit sensor_id

/-- Method `_validate_range`: custom range first, then sensor-specific, then
unit-based; each of the first two tiers returns without consulting later
tiers. -/
def validate_range (v : SensorValidator) (sensor_id : String) (value : ℚ)
    (unit : Option String) : Bool × SensorValidator :=
  match dict_get v.custom_ranges sensor_id with
  | some mm =>
    if ¬(mm.1 ≤ value ∧ value ≤ mm.2) then
      (false, { v with stats := (v.stats.record_rejection sensor_id (.num value)
                  (.outOfRange .custom mm.1 mm.2)) })
    else (true, v)
  | none =>
    match dict_get SENSOR_SPECIFIC_RANGES sensor_id with
    | some mm =>
      if ¬(mm.1 ≤ value ∧ value ≤ mm.2) then
        (false, { v with stats := (v.stats.record_rejection sensor_id (.num value)
                    (.outOfRange .sensorSpecific mm.1 mm.2)) })
      else (true, v)
    | none =>
      match unit with
      | some u =>
        match dict_get DEFAULT_RANGES u with
        | some mm =>
          if ¬(mm.1 ≤ value ∧ value ≤ mm.2) then
            (false, { v with stats := (v.stats.record_rejection sensor_id (.num value)
                        (.outOfRange (.unitBased u) mm.1 mm.2)) })
          else (true, v)
        | none => (true, v)
      | none => (true, v)

/-- Method `_validate_monotonic`: non-monotonic sensors pass untouched; a monotonic
sensor's value is rejected when strictly below the tracked last value, and
otherwise the tracker is updated to the value. -/
def validate_monotonic (v : SensorValidator) (sensor_id : String) (value : ℚ) :
    Bool × SensorValidator :=
  if ¬(MONOTONIC_INCREASING_SENSORS.contains sensor_id) then (true, v)
  else
    match dict_get v.last_monotonic_values sensor_id with
    | some last_value =>
      if value < last_value then
        (false, { v with stats := (v.stats.record_rejection sensor_id (.num value)
                    (.monotonicRegression last_value value)) })
      else
        (true, { v with last_monotonic_values :=
                  dict_set v.last_monotonic_values sensor_id value })
    | none =>
      (true, { v with last_monotonic_values :=
                dict_set v.last_monotonic_values sensor_id value })

/-- Python `max(l)` on a non-empty list (the default is never used at the
call sites, which guard on `length >= 3`). -/
def py_max (l : List ℚ) : ℚ :=
  match l with
  | [] => 0
  | h :: t => t.foldl max h

/-- Python `min(l)` on a non-empty list. -/
def py_min (l : List ℚ) : ℚ :=
  match l with
  | [] => 0
  | h :: t => t.foldl min h

/-- Method `_validate_outlier`: missing-key early accept, `length < 3` early accept,
then the near-zero-mean range-based test or the mean-relative test. -/
def validate_outlier (v : SensorValidator) (sensor_id : String) (value : ℚ) :
    Bool × SensorValidator :=
  match dict_get v.value_history sensor_id with
  | none => (true, v)
  | some history =>
    if history.length < 3 then (true, v)
    else
      let mean := history.sum / (history.length : ℚ)
      let max_recent := py_max history
      let min_recent := py_min history
      if |mean| < 1 / 10 then
        let range_val := max_recent - min_recent
        let threshold := range_val * v.outlier_sensitivity
        if |value| > threshold + max |max_recent| |min_recent| then
          (false, { v with stats := v.stats.record_rejection sensor_id (.num value) .outlier })
        else (true, v)
      else
        let threshold := |mean| * v.outlier_sensitivity
        if |value - mean| > threshold then
          (false, { v with stats := v.stats.record_rejection sensor_id (.num value) .outlier })
        else (true, v)

/-- Method `_validate_value`: the ordered verdict pipeline for one reading.
NaN/±Inf match no Modbus sentinel (NaN comparisons are false; |±Inf − e| is
+Inf) and fail `math.isfinite`, so `nonfinite` is rejected at the finiteness
step; a finite `num` passes it. -/
def validate_value (v : SensorValidator) (sensor_id : String) (value : Value)
    (sensor_metadata : Option Metadata) : Bool × SensorValidator :=
  match value with
  | .null => (true, v)
  | .bool _ => (true, v)
  | .text _ => (true, v)
  | .nonfinite =>
    (false, { v with stats := v.stats.record_rejection sensor_id .nonfinite .nonFinite })
  | .num q =>
    if is_modbus_error q then
      (false, { v with stats := v.stats.record_rejection sensor_id (.num q) .modbusError })
    else
      let unit := get_sensor_unit sensor_id sensor_metadata
      let r1 := validate_range v sensor_id q unit
      if ¬r1.1 then (false, r1.2)
      else
        let r2 := validate_monotonic r1.2 sensor_id q
        if ¬r2.1 then (false, r2.2)
        else
          let r3 := validate_outlier r2.2 sensor_id q
          if ¬r3.1 then (false, r3.2)
          else (true, r3.2)

/-- Method `_update_history`: create the entry if missing, append the accepted
value, evict the oldest entry when over the window cap. -/
def update_history (v : SensorValidator) (sensor_id : String) (value : ℚ) :
    SensorValidator :=
  let h := (dict_get v.value_history sensor_id).getD [] ++ [value]
  let h := if h.length > v.max_history then h.drop 1 else h
  { v with value_history := dict_set v.value_history sensor_id h }

/-- The loop body of `validate_data` for one entry: the verdict, and the state
after the `_validate_value` call plus (on acceptance of a numeric non-bool
value) the `_update_history` call. -/
def step (v : SensorValidator) (sensor_id : String) (value : Value)
    (sensor_metadata : Option Metadata) : Bool × SensorValidator :=
  let r := validate_value v sensor_id value sensor_metadata
  (r.1,
   if r.1 then
     match value with
     | .num q => update_history r.2 sensor_id q
     | _ => r.2
   else r.2)

/-- The `for sensor_id, value in data.items()` loop of `validate_data`:
accepted entries are kept in order, state is threaded through `step`. -/
def validate_items (v : SensorValidator) (items : List (String × Value))
    (sensor_metadata : Option Metadata) : List (String × Value) × SensorValidator :=
  match items with
  | [] => ([], v)
  | it :: rest =>
    let r := step v it.1 it.2 sensor_metadata
    let rec_rest := validate_items r.2 rest sensor_metadata
    (if r.1 then it :: rec_rest.1 else rec_rest.1, rec_rest.2)

/-- Method `validate_data`: pass-through when validation is disabled, otherwise keep
exactly the entries `_validate_value` accepts. -/
def validate_data (v : SensorValidator) (data : List (String × Value))
    (sensor_metadata : Option Metadata) : List (String × Value) × SensorValidator :=
  if ¬v.enable_validation then (data, v)
  else validate_items v data sensor_metadata

/-- A sequence of `validate_data` calls (each with its own batch and
metadata), returning the final validator state. -/
def run_batches (v : SensorValidator)
    (batches : List (List (String × Value) × Option Metadata)) : SensorValidator :=
  batches.foldl (fun st b => (validate_data st b.1 b.2).2) v

/-- Range resolution as the specification words it: explicit per-sensor
override, then the built-in per-sensor table, then the unit-derived default,
then no bound.  This definition follows the spec text and is compared with
the source-derived `validate_range`. -/
def resolved_range_spec (custom_ranges : List (String × (ℚ × ℚ))) (sensor_id : String)
    (unit : Option String) : Option (ℚ × ℚ) :=
  match dict_get custom_ranges sensor_id with
  | some mm => some mm
  | none =>
    match dict_get SENSOR_SPECIFIC_RANGES sensor_id with
    | some mm => some mm
    | none =>
      match unit with
      | some u => dict_get DEFAULT_RANGES u
      | none => none

/-- Bound on every per-sensor rolling history. -/
def hist_bound (n : Nat) (v : SensorValidator) : Prop :=
  ∀ p ∈ v.value_history, p.2.length ≤ n



/-! ### Association-list dictionary lemmas -/

theorem dict_get_nil {α : Type} (k : String) :
    dict_get ([] : List (String × α)) k = none := rfl

theorem dict_get_cons {α : Type} (k' : String) (v : α) (rest : List (String × α))
    (k : String) :
    dict_get ((k', v) :: rest) k = if k' = k then some v else dict_get rest k := rfl

theorem dict_set_nil {α : Type} (k : String) (v : α) :
    dict_set ([] : List (String × α)) k v = [(k, v)] := rfl

theorem dict_set_cons {α : Type} (k' : String) (v' : α) (rest : List (String × α))
    (k : String) (v : α) :
    dict_set ((k', v') :: rest) k v =
      if k' = k then (k, v) :: rest else (k', v') :: dict_set rest k v := rfl

theorem dict_get_dict_set {α : Type} (d : List (String × α)) (k : String) (v : α)
    (t : String) :
    dict_get (dict_set d k v) t = if k = t then some v else dict_get d t := by
  induction d with
  | nil =>
    by_cases h : k = t <;> simp [dict_set, dict_get, h]
  | cons p rest ih =>
    obtain ⟨k', v'⟩ := p
    by_cases h1 : k' = k
    · subst h1
      by_cases h2 : k' = t <;> simp [dict_set, dict_get, h2]
    · by_cases h2 : k' = t
      · subst h2
        have : ¬k = k' := fun h => h1 h.symm
        simp [dict_set, dict_get, h1, this]
      · simp [dict_set, dict_get, h1, h2, ih]

theorem mem_dict_set {α : Type} (d : List (String × α)) (k : String) (v : α)
    (p : String × α) (hp : p ∈ dict_set d k v) : p = (k, v) ∨ p ∈ d := by
  induction d with
  | nil => simpa [dict_set] using hp
  | cons q rest ih =>
    obtain ⟨k', v'⟩ := q
    simp only [dict_set] at hp
    by_cases h : k' = k
    · rw [if_pos h, List.mem_cons] at hp
      rcases hp with h1 | h1
      · exact Or.inl h1
      · exact Or.inr (List.mem_cons_of_mem _ h1)
    · rw [if_neg h, List.mem_cons] at hp
      rcases hp with h1 | h1
      · subst h1; exact Or.inr (List.mem_cons_self _ _)
      · rcases ih h1 with h2 | h2
        · exact Or.inl h2
        · exact Or.inr (List.mem_cons_of_mem _ h2)

theorem dict_get_mem {α : Type} (d : List (String × α)) (k : String) (v : α)
    (h : dict_get d k = some v) : (k, v) ∈ d := by
  induction d with
  | nil => simp [dict_get] at h
  | cons p rest ih =>
    obtain ⟨k', v'⟩ := p
    by_cases h1 : k' = k
    · subst h1
      simp [dict_get] at h
      simp [h]
    · simp [dict_get, h1] at h
      exact List.mem_cons_of_mem _ (ih h)

/-! ### Shape lemmas for the individual checks -/

theorem validate_range_cases (v : SensorValidator) (s : String) (q : ℚ)
    (u : Option String) :
    ((validate_range v s q u).1 = true ∧ (validate_range v s q u).2 = v) ∨
    ((validate_range v s q u).1 = false ∧ ∃ r,
      (validate_range v s q u).2 = { v with stats := v.stats.record_rejection s (.num q) r }) := by
  unfold validate_range
  repeat' split
  all_goals first
    | exact Or.inl ⟨rfl, rfl⟩
    | exact Or.inr ⟨rfl, _, rfl⟩

theorem validate_monotonic_cases (v : SensorValidator) (s : String) (q : ℚ) :
    ((validate_monotonic v s q).1 = true ∧ s ∉ MONOTONIC_INCREASING_SENSORS ∧
      (validate_monotonic v s q).2 = v) ∨
    ((validate_monotonic v s q).1 = true ∧ s ∈ MONOTONIC_INCREASING_SENSORS ∧
      (validate_monotonic v s q).2 =
        { v with last_monotonic_values := dict_set v.last_monotonic_values s q } ∧
      (∀ x, dict_get v.last_monotonic_values s = some x → x ≤ q)) ∨
    ((validate_monotonic v s q).1 = false ∧ s ∈ MONOTONIC_INCREASING_SENSORS ∧ ∃ last,
      (validate_monotonic v s q).2 =
        { v with stats := v.stats.record_rejection s (.num q) (.monotonicRegression last q) } ∧
      dict_get v.last_monotonic_values s = some last ∧ q < last) := by
  unfold validate_monotonic
  repeat' split
  all_goals simp_all [List.elem_iff]
  exact ⟨_, rfl, rfl, by assumption⟩

theorem validate_outlier_cases (v : SensorValidator) (s : String) (q : ℚ) :
    ((validate_outlier v s q).1 = true ∧ (validate_outlier v s q).2 = v) ∨
    ((validate_outlier v s q).1 = false ∧
      (validate_outlier v s q).2 =
        { v with stats := v.stats.record_rejection s (.num q) .outlier }) := by
  unfold validate_outlier
  dsimp only
  repeat' split
  all_goals first
    | exact Or.inl ⟨rfl, rfl⟩
    | exact Or.inr ⟨rfl, rfl⟩

theorem validate_range_true (v : SensorValidator) (s : String) (q : ℚ)
    (u : Option String) (h : (validate_range v s q u).1 = true) :
    (validate_range v s q u).2 = v := by
  rcases validate_range_cases v s q u with ⟨_, h2⟩ | ⟨h1, _⟩
  · exact h2
  · rw [h] at h1; cases h1

theorem validate_outlier_true (v : SensorValidator) (s : String) (q : ℚ)
    (h : (validate_outlier v s q).1 = true) :
    (validate_outlier v s q).2 = v := by
  rcases validate_outlier_cases v s q with ⟨_, h2⟩ | ⟨h1, _⟩
  · exact h2
  · rw [h] at h1; cases h1

theorem validate_monotonic_notmem (v : SensorValidator) (s : String) (q : ℚ)
    (h : s ∉ MONOTONIC_INCREASING_SENSORS) :
    validate_monotonic v s q = (true, v) := by
  unfold validate_monotonic
  rw [if_pos]
  simpa [List.elem_iff] using h

theorem validate_monotonic_reject (v : SensorValidator) (s : String) (q x : ℚ)
    (hmem : s ∈ MONOTONIC_INCREASING_SENSORS)
    (hx : dict_get v.last_monotonic_values s = some x) (hlt : q < x) :
    (validate_monotonic v s q).1 = false := by
  rcases validate_monotonic_cases v s q with ⟨_, h2, _⟩ | ⟨_, _, _, h4⟩ | ⟨h1, _⟩
  · exact absurd hmem h2
  · exact absurd (h4 x hx) (not_le.mpr hlt)
  · exact h1

theorem validate_value_cases (v : SensorValidator) (s : String) (val : Value)
    (m : Option Metadata) :
    ((validate_value v s val m).1 = true ∧
      (((validate_value v s val m).2 = v ∧
          (∀ q, val = .num q → s ∉ MONOTONIC_INCREASING_SENSORS)) ∨
        ∃ q, val = .num q ∧ s ∈ MONOTONIC_INCREASING_SENSORS ∧
          (validate_value v s val m).2 =
            { v with last_monotonic_values := dict_set v.last_monotonic_values s q } ∧
          (∀ x, dict_get v.last_monotonic_values s = some x → x ≤ q))) ∨
    ((validate_value v s val m).1 = false ∧
      ∃ fval r,
        ((validate_value v s val m).2 = { v with stats := v.stats.record_rejection s fval r } ∨
          ∃ q, val = .num q ∧ s ∈ MONOTONIC_INCREASING_SENSORS ∧
            (validate_value v s val m).2 =
              { v with stats := v.stats.record_rejection s fval r,
                       last_monotonic_values := dict_set v.last_monotonic_values s q } ∧
            (∀ x, dict_get v.last_monotonic_values s = some x → x ≤ q))) := by
  cases val with
  | null => exact Or.inl ⟨rfl, Or.inl ⟨rfl, fun q h => nomatch h⟩⟩
  | bool b => exact Or.inl ⟨rfl, Or.inl ⟨rfl, fun q h => nomatch h⟩⟩
  | text t => exact Or.inl ⟨rfl, Or.inl ⟨rfl, fun q h => nomatch h⟩⟩
  | nonfinite => exact Or.inr ⟨rfl, .nonfinite, .nonFinite, Or.inl rfl⟩
  | num q =>
    have e : validate_value v s (.num q) m =
        (if is_modbus_error q then
          (false, { v with stats := v.stats.record_rejection s (.num q) .modbusError })
        else
          if ¬(validate_range v s q (get_sensor_unit s m)).1 then
            (false, (validate_range v s q (get_sensor_unit s m)).2)
          else
            if ¬(validate_monotonic (validate_range v s q (get_sensor_unit s m)).2 s q).1 then
              (false, (validate_monotonic (validate_range v s q (get_sensor_unit s m)).2 s q).2)
            else
              if ¬(validate_outlier
                    (validate_monotonic (validate_range v s q (get_sensor_unit s m)).2 s q).2
                    s q).1 then
                (false, (validate_outlier
                  (validate_monotonic (validate_range v s q (get_sensor_unit s m)).2 s q).2
                  s q).2)
              else
                (true, (validate_outlier
                  (validate_monotonic (validate_range v s q (get_sensor_unit s m)).2 s q).2
                  s q).2)) := rfl
    rw [e]
    by_cases hm : is_modbus_error q
    · rw [if_pos hm]
      exact Or.inr ⟨rfl, .num q, .modbusError, Or.inl rfl⟩
    · rw [if_neg hm]
      rcases validate_range_cases v s q (get_sensor_unit s m) with ⟨ha1, ha2⟩ | ⟨ha1, r, ha2⟩
      · rw [ha1, ha2, if_neg (by simp)]
        rcases validate_monotonic_cases v s q with ⟨hb1, hb2, hb3⟩ | ⟨hb1, hb2, hb3, hb4⟩ |
          ⟨hb1, hb2, last, hb3, hb4, hb5⟩
        · rw [hb1, hb3, if_neg (by simp)]
          rcases validate_outlier_cases v s q with ⟨hc1, hc2⟩ | ⟨hc1, hc2⟩
          · rw [hc1, hc2, if_neg (by simp)]
            exact Or.inl ⟨rfl, Or.inl ⟨rfl, fun q' _ => hb2⟩⟩
          · rw [hc1, hc2, if_pos (by simp)]
            exact Or.inr ⟨rfl, .num q, .outlier, Or.inl rfl⟩
        · rw [hb1, hb3, if_neg (by simp)]
          rcases validate_outlier_cases
            { v with last_monotonic_values := dict_set v.last_monotonic_values s q } s q with
            ⟨hc1, hc2⟩ | ⟨hc1, hc2⟩
          · rw [hc1, hc2, if_neg (by simp)]
            exact Or.inl ⟨rfl, Or.inr ⟨q, rfl, hb2, rfl, hb4⟩⟩
          · rw [hc1, hc2, if_pos (by simp)]
            exact Or.inr ⟨rfl, .num q, .outlier, Or.inr ⟨q, rfl, hb2, rfl, hb4⟩⟩
        · rw [hb1, if_pos (by simp), hb3]
          exact Or.inr ⟨rfl, .num q, .monotonicRegression last q, Or.inl rfl⟩
      · rw [ha1, if_pos (by simp), ha2]
        exact Or.inr ⟨rfl, .num q, r, Or.inl rfl⟩

/-! ### Effect lemmas for the single-value pipeline -/

theorem validate_value_value_history (v : SensorValidator) (s : String) (val : Value)
    (m : Option Metadata) :
    (validate_value v s val m).2.value_history = v.value_history := by
  rcases validate_value_cases v s val m with ⟨_, ⟨h, _⟩ | ⟨q, _, _, h, _⟩⟩ |
    ⟨_, fval, r, h | ⟨q, _, _, h, _⟩⟩ <;> rw [h]

theorem validate_value_enable (v : SensorValidator) (s : String) (val : Value)
    (m : Option Metadata) :
    (validate_value v s val m).2.enable_validation = v.enable_validation := by
  rcases validate_value_cases v s val m with ⟨_, ⟨h, _⟩ | ⟨q, _, _, h, _⟩⟩ |
    ⟨_, fval, r, h | ⟨q, _, _, h, _⟩⟩ <;> rw [h]

theorem validate_value_max_history (v : SensorValidator) (s : String) (val : Value)
    (m : Option Metadata) :
    (validate_value v s val m).2.max_history = v.max_history := by
  rcases validate_value_cases v s val m with ⟨_, ⟨h, _⟩ | ⟨q, _, _, h, _⟩⟩ |
    ⟨_, fval, r, h | ⟨q, _, _, h, _⟩⟩ <;> rw [h]

theorem record_rejection_max (st : ValidationStats) (s : String) (val : Value)
    (r : Reason) :
    (st.record_rejection s val r).max_recent_failures = st.max_recent_failures := rfl

theorem validate_value_max_failures (v : SensorValidator) (s : String) (val : Value)
    (m : Option Metadata) :
    (validate_value v s val m).2.stats.max_recent_failures =
      v.stats.max_recent_failures := by
  rcases validate_value_cases v s val m with ⟨_, ⟨h, _⟩ | ⟨q, _, _, h, _⟩⟩ |
    ⟨_, fval, r, h | ⟨q, _, _, h, _⟩⟩
  · rw [h]
  · rw [h]
  · rw [h]; exact record_rejection_max _ _ _ _
  · rw [h]; exact record_rejection_max _ _ _ _

theorem validate_value_tracker_mono (v : SensorValidator) (s : String) (val : Value)
    (m : Option Metadata) (t : String) (x : ℚ)
    (hx : dict_get v.last_monotonic_values t = some x) :
    ∃ y, dict_get (validate_value v s val m).2.last_monotonic_values t = some y ∧
      x ≤ y := by
  rcases validate_value_cases v s val m with ⟨_, ⟨h, _⟩ | ⟨q, _, _, h, hb⟩⟩ |
    ⟨_, fval, r, h | ⟨q, _, _, h, hb⟩⟩
  · exact ⟨x, by rw [h]; exact hx, le_refl x⟩
  · rw [h]
    by_cases hts : s = t
    · subst hts
      exact ⟨q, by simp [dict_get_dict_set], hb x hx⟩
    · exact ⟨x, by simpa [dict_get_dict_set, hts] using hx, le_refl x⟩
  · exact ⟨x, by rw [h]; exact hx, le_refl x⟩
  · rw [h]
    by_cases hts : s = t
    · subst hts
      exact ⟨q, by simp [dict_get_dict_set], hb x hx⟩
    · exact ⟨x, by simpa [dict_get_dict_set, hts] using hx, le_refl x⟩

theorem validate_value_accept_tracker (v : SensorValidator) (s : String) (q : ℚ)
    (m : Option Metadata) (hmem : s ∈ MONOTONIC_INCREASING_SENSORS)
    (hacc : (validate_value v s (.num q) m).1 = true) :
    dict_get (validate_value v s (.num q) m).2.last_monotonic_values s = some q := by
  rcases validate_value_cases v s (.num q) m with ⟨_, ⟨h, hno⟩ | ⟨q', hq, _, h, _⟩⟩ |
    ⟨h1, _⟩
  · exact absurd hmem (hno q rfl)
  · cases hq
    rw [h]
    simp [dict_get_dict_set]
  · rw [hacc] at h1; cases h1

theorem validate_value_reject_below (v : SensorValidator) (s : String) (q x : ℚ)
    (m : Option Metadata) (hmem : s ∈ MONOTONIC_INCREASING_SENSORS)
    (hx : dict_get v.last_monotonic_values s = some x) (hlt : q < x) :
    (validate_value v s (.num q) m).1 = false := by
  rcases validate_value_cases v s (.num q) m with ⟨h1, ⟨h, hno⟩ | ⟨q', hq, _, h, hb⟩⟩ |
    ⟨h1, _⟩
  · exact absurd hmem (hno q rfl)
  · cases hq
    exact absurd (hb x hx) (not_le.mpr hlt)
  · exact h1

/-! ### Statistics and history bookkeeping lemmas -/

theorem record_rejection_count_get (st : ValidationStats) (s : String) (val : Value)
    (r : Reason) (t : String) :
    dict_get (st.record_rejection s val r).rejected_count t =
      if s = t then some ((dict_get st.rejected_count s).getD 0 + 1)
      else dict_get st.rejected_count t :=
  dict_get_dict_set _ _ _ _

theorem record_rejection_count_mono (st : ValidationStats) (s : String) (val : Value)
    (r : Reason) (t : String) :
    (dict_get st.rejected_count t).getD 0 ≤
      (dict_get (st.record_rejection s val r).rejected_count t).getD 0 := by
  rw [record_rejection_count_get]
  by_cases h : s = t
  · subst h; simp
  · simp [h]

theorem record_rejection_len (st : ValidationStats) (s : String) (val : Value)
    (r : Reason) (c : Nat) (hmax : st.max_recent_failures = c)
    (h : st.recent_failures.length ≤ c) :
    (st.record_rejection s val r).recent_failures.length ≤ c := by
  unfold ValidationStats.record_rejection
  dsimp only
  split
  · simp; omega
  · next hnot =>
    simp at hnot ⊢
    omega

theorem record_rejection_fifo (st : ValidationStats) (s : String) (val : Value)
    (r : Reason) (hfull : st.recent_failures.length = st.max_recent_failures)
    (hpos : 0 < st.max_recent_failures) :
    (st.record_rejection s val r).recent_failures =
      st.recent_failures.drop 1 ++ [⟨s, val, r⟩] := by
  unfold ValidationStats.record_rejection
  dsimp only
  rw [if_pos (by simp [hfull])]
  cases hl : st.recent_failures with
  | nil => rw [hl] at hfull; simp at hfull; omega
  | cons a as => simp

theorem update_history_fifo (v : SensorValidator) (s : String) (q : ℚ) (h : List ℚ)
    (hget : dict_get v.value_history s = some h) (hfull : h.length = v.max_history)
    (hpos : 0 < v.max_history) :
    dict_get (update_history v s q).value_history s = some (h.drop 1 ++ [q]) := by
  unfold update_history
  dsimp only
  rw [dict_get_dict_set, if_pos rfl, hget]
  dsimp only [Option.getD]
  rw [if_pos (by simp [hfull])]
  cases hl : h with
  | nil => rw [hl] at hfull; simp at hfull; omega
  | cons a as => simp

theorem update_history_hist_bound (v : SensorValidator) (s : String) (q : ℚ) (n : Nat)
    (hmax : v.max_history = n) (hb : hist_bound n v) :
    hist_bound n (update_history v s q) := by
  intro p hp
  have hlen : ((dict_get v.value_history s).getD []).length ≤ n := by
    cases hg : dict_get v.value_history s with
    | none => simp
    | some h => simpa using hb (s, h) (dict_get_mem _ _ _ hg)
  have hp' : p ∈ dict_set v.value_history s
      (if ((dict_get v.value_history s).getD [] ++ [q]).length > v.max_history
       then ((dict_get v.value_history s).getD [] ++ [q]).drop 1
       else (dict_get v.value_history s).getD [] ++ [q]) := hp
  rcases mem_dict_set _ _ _ _ hp' with hpe | hpm
  · subst hpe
    dsimp only
    split
    · simp
      omega
    · next hnot =>
      simp at hnot ⊢
      omega
  · exact hb p hpm

theorem validate_value_stats_len (v : SensorValidator) (s : String) (val : Value)
    (m : Option Metadata) (c : Nat) (hmax : v.stats.max_recent_failures = c)
    (h : v.stats.recent_failures.length ≤ c) :
    (validate_value v s val m).2.stats.recent_failures.length ≤ c := by
  rcases validate_value_cases v s val m with ⟨_, ⟨hh, _⟩ | ⟨q, _, _, hh, _⟩⟩ |
    ⟨_, fval, r, hh | ⟨q, _, _, hh, _⟩⟩ <;> rw [hh]
  all_goals first
    | exact h
    | exact record_rejection_len _ _ _ _ c hmax h

theorem validate_value_count_mono (v : SensorValidator) (s : String) (val : Value)
    (m : Option Metadata) (t : String) :
    (dict_get v.stats.rejected_count t).getD 0 ≤
      (dict_get (validate_value v s val m).2.stats.rejected_count t).getD 0 := by
  rcases validate_value_cases v s val m with ⟨_, ⟨hh, _⟩ | ⟨q, _, _, hh, _⟩⟩ |
    ⟨_, fval, r, hh | ⟨q, _, _, hh, _⟩⟩ <;> rw [hh]
  all_goals first
    | exact le_refl _
    | exact record_rejection_count_mono _ _ _ _ _

/-! ### Effect lemmas for `step` -/

theorem step_enable (v : SensorValidator) (s : String) (val : Value)
    (m : Option Metadata) :
    (step v s val m).2.enable_validation = v.enable_validation := by
  unfold step
  dsimp only
  split
  · cases val <;> simp [validate_value_enable, update_history]
  · exact validate_value_enable v s val m

theorem step_max_history (v : SensorValidator) (s : String) (val : Value)
    (m : Option Metadata) :
    (step v s val m).2.max_history = v.max_history := by
  unfold step
  dsimp only
  split
  · cases val <;> simp [validate_value_max_history, update_history]
  · exact validate_value_max_history v s val m

theorem step_max_failures (v : SensorValidator) (s : String) (val : Value)
    (m : Option Metadata) :
    (step v s val m).2.stats.max_recent_failures = v.stats.max_recent_failures := by
  unfold step
  dsimp only
  split
  · cases val <;> simp [validate_value_max_failures, update_history]
  · exact validate_value_max_failures v s val m

theorem step_hist_bound (v : SensorValidator) (s : String) (val : Value)
    (m : Option Metadata) (n : Nat) (hmax : v.max_history = n) (hb : hist_bound n v) :
    hist_bound n (step v s val m).2 := by
  have hb2 : hist_bound n (validate_value v s val m).2 := by
    intro p hp
    rw [validate_value_value_history] at hp
    exact hb p hp
  have hm2 : (validate_value v s val m).2.max_history = n := by
    rw [validate_value_max_history]; exact hmax
  unfold step
  dsimp only
  split
  · cases val with
    | num q => exact update_history_hist_bound _ _ _ n hm2 hb2
    | null => exact hb2
    | bool b => exact hb2
    | text t => exact hb2
    | nonfinite => exact hb2
  · exact hb2

theorem step_fail_len (v : SensorValidator) (s : String) (val : Value)
    (m : Option Metadata) (c : Nat) (hmax : v.stats.max_recent_failures = c)
    (h : v.stats.recent_failures.length ≤ c) :
    (step v s val m).2.stats.recent_failures.length ≤ c := by
  have h2 := validate_value_stats_len v s val m c hmax h
  unfold step
  dsimp only
  split
  · cases val with
    | num q => simpa [update_history] using h2
    | null => exact h2
    | bool b => exact h2
    | text t => exact h2
    | nonfinite => exact h2
  · exact h2

theorem step_count_mono (v : SensorValidator) (s : String) (val : Value)
    (m : Option Metadata) (t : String) :
    (dict_get v.stats.rejected_count t).getD 0 ≤
      (dict_get (step v s val m).2.stats.rejected_count t).getD 0 := by
  have h2 := validate_value_count_mono v s val m t
  unfold step
  dsimp only
  split
  · cases val with
    | num q => simpa [update_history] using h2
    | null => exact h2
    | bool b => exact h2
    | text t => exact h2
    | nonfinite => exact h2
  · exact h2

theorem step_tracker_mono (v : SensorValidator) (s : String) (val : Value)
    (m : Option Metadata) (t : String) (x : ℚ)
    (hx : dict_get v.last_monotonic_values t = some x) :
    ∃ y, dict_get (step v s val m).2.last_monotonic_values t = some y ∧ x ≤ y := by
  have h2 := validate_value_tracker_mono v s val m t x hx
  unfold step
  dsimp only
  split
  · cases val with
    | num q => simpa [update_history] using h2
    | null => exact h2
    | bool b => exact h2
    | text t => exact h2
    | nonfinite => exact h2
  · exact h2

theorem step_accept_tracker (v : SensorValidator) (s : String) (q : ℚ)
    (m : Option Metadata) (hmem : s ∈ MONOTONIC_INCREASING_SENSORS)
    (hacc : (step v s (.num q) m).1 = true) :
    dict_get (step v s (.num q) m).2.last_monotonic_values s = some q := by
  have hacc' : (validate_value v s (.num q) m).1 = true := hacc
  have h2 := validate_value_accept_tracker v s q m hmem hacc'
  unfold step
  dsimp only
  rw [if_pos hacc']
  simpa [update_history] using h2

/-! ### Effect lemmas for `validate_items`, `validate_data`, `run_batches` -/

theorem validate_items_enable (items : List (String × Value)) :
    ∀ (v : SensorValidator) (m : Option Metadata),
      (validate_items v items m).2.enable_validation = v.enable_validation := by
  induction items with
  | nil => intro v m; rfl
  | cons it rest ih =>
    intro v m
    show (validate_items (step v it.1 it.2 m).2 rest m).2.enable_validation = _
    rw [ih, step_enable]

theorem validate_items_max_history (items : List (String × Value)) :
    ∀ (v : SensorValidator) (m : Option Metadata),
      (validate_items v items m).2.max_history = v.max_history := by
  induction items with
  | nil => intro v m; rfl
  | cons it rest ih =>
    intro v m
    show (validate_items (step v it.1 it.2 m).2 rest m).2.max_history = _
    rw [ih, step_max_history]

theorem validate_items_max_failures (items : List (String × Value)) :
    ∀ (v : SensorValidator) (m : Option Metadata),
      (validate_items v items m).2.stats.max_recent_failures =
        v.stats.max_recent_failures := by
  induction items with
  | nil => intro v m; rfl
  | cons it rest ih =>
    intro v m
    show (validate_items (step v it.1 it.2 m).2 rest m).2.stats.max_recent_failures = _
    rw [ih, step_max_failures]

theorem validate_items_hist_bound (items : List (String × Value)) :
    ∀ (v : SensorValidator) (m : Option Metadata) (n : Nat),
      v.max_history = n → hist_bound n v → hist_bound n (validate_items v items m).2 := by
  induction items with
  | nil => intro v m n _ hb; exact hb
  | cons it rest ih =>
    intro v m n hmax hb
    show hist_bound n (validate_items (step v it.1 it.2 m).2 rest m).2
    exact ih _ m n (by rw [step_max_history]; exact hmax)
      (step_hist_bound v it.1 it.2 m n hmax hb)

theorem validate_items_fail_len (items : List (String × Value)) :
    ∀ (v : SensorValidator) (m : Option Metadata) (c : Nat),
      v.stats.max_recent_failures = c → v.stats.recent_failures.length ≤ c →
      (validate_items v items m).2.stats.recent_failures.length ≤ c := by
  induction items with
  | nil => intro v m c _ h; exact h
  | cons it rest ih =>
    intro v m c hmax h
    show (validate_items (step v it.1 it.2 m).2 rest m).2.stats.recent_failures.length ≤ c
    exact ih _ m c (by rw [step_max_failures]; exact hmax)
      (step_fail_len v it.1 it.2 m c hmax h)

theorem validate_items_count_mono (items : List (String × Value)) :
    ∀ (v : SensorValidator) (m : Option Metadata) (t : String),
      (dict_get v.stats.rejected_count t).getD 0 ≤
        (dict_get (validate_items v items m).2.stats.rejected_count t).getD 0 := by
  induction items with
  | nil => intro v m t; exact le_refl _
  | cons it rest ih =>
    intro v m t
    calc (dict_get v.stats.rejected_count t).getD 0
        ≤ (dict_get (step v it.1 it.2 m).2.stats.rejected_count t).getD 0 :=
          step_count_mono v it.1 it.2 m t
      _ ≤ _ := ih _ m t

theorem validate_items_tracker_mono (items : List (String × Value)) :
    ∀ (v : SensorValidator) (m : Option Metadata) (t : String) (x : ℚ),
      dict_get v.last_monotonic_values t = some x →
      ∃ y, dict_get (validate_items v items m).2.last_monotonic_values t = some y ∧
        x ≤ y := by
  induction items with
  | nil => intro v m t x hx; exact ⟨x, hx, le_refl x⟩
  | cons it rest ih =>
    intro v m t x hx
    obtain ⟨y, hy, hxy⟩ := step_tracker_mono v it.1 it.2 m t x hx
    obtain ⟨z, hz, hyz⟩ := ih _ m t y hy
    exact ⟨z, hz, le_trans hxy hyz⟩

theorem validate_data_enable (v : SensorValidator) (data : List (String × Value))
    (m : Option Metadata) :
    (validate_data v data m).2.enable_validation = v.enable_validation := by
  unfold validate_data
  split
  · rfl
  · exact validate_items_enable data v m

theorem validate_data_tracker_mono (v : SensorValidator) (data : List (String × Value))
    (m : Option Metadata) (t : String) (x : ℚ)
    (hx : dict_get v.last_monotonic_values t = some x) :
    ∃ y, dict_get (validate_data v data m).2.last_monotonic_values t = some y ∧
      x ≤ y := by
  unfold validate_data
  split
  · exact ⟨x, hx, le_refl x⟩
  · exact validate_items_tracker_mono data v m t x hx

theorem run_batches_enable (bs : List (List (String × Value) × Option Metadata)) :
    ∀ v : SensorValidator,
      (run_batches v bs).enable_validation = v.enable_validation := by
  induction bs with
  | nil => intro v; rfl
  | cons b rest ih =>
    intro v
    show (run_batches (validate_data v b.1 b.2).2 rest).enable_validation = _
    rw [ih, validate_data_enable]

theorem run_batches_tracker_mono (bs : List (List (String × Value) × Option Metadata)) :
    ∀ (v : SensorValidator) (t : String) (x : ℚ),
      dict_get v.last_monotonic_values t = some x →
      ∃ y, dict_get (run_batches v bs).last_monotonic_values t = some y ∧ x ≤ y := by
  induction bs with
  | nil => intro v t x hx; exact ⟨x, hx, le_refl x⟩
  | cons b rest ih =>
    intro v t x hx
    obtain ⟨y, hy, hxy⟩ := validate_data_tracker_mono v b.1 b.2 t x hx
    obtain ⟨z, hz, hyz⟩ := ih _ t y hy
    exact ⟨z, hz, le_trans hxy hyz⟩

/-! ### Singleton batches and acceptance characterization -/

theorem validate_items_singleton (v : SensorValidator) (s : String) (val : Value)
    (m : Option Metadata) :
    validate_items v [(s, val)] m =
      (if (step v s val m).1 then [(s, val)] else [], (step v s val m).2) := rfl

theorem validate_data_singleton (v : SensorValidator) (s : String) (val : Value)
    (m : Option Metadata) (he : v.enable_validation = true) :
    validate_data v [(s, val)] m =
      (if (validate_value v s val m).1 then [(s, val)] else [], (step v s val m).2) := by
  unfold validate_data
  rw [if_neg (by simp [he])]
  exact validate_items_singleton v s val m

theorem validate_data_singleton_reject (v : SensorValidator) (s : String) (val : Value)
    (m : Option Metadata) (he : v.enable_validation = true)
    (hrej : (validate_value v s val m).1 = false) :
    (validate_data v [(s, val)] m).1 = [] := by
  rw [validate_data_singleton v s val m he, hrej]
  simp

theorem validate_data_singleton_accept (v : SensorValidator) (s : String) (val : Value)
    (m : Option Metadata) (he : v.enable_validation = true)
    (hacc : (validate_data v [(s, val)] m).1 ≠ []) :
    (validate_value v s val m).1 = true := by
  by_cases h : (validate_value v s val m).1 = true
  · exact h
  · exfalso
    exact hacc (validate_data_singleton_reject v s val m he (by simpa using h))

theorem validate_monotonic_self (v : SensorValidator) (s : String) (V : ℚ)
    (h : dict_get v.last_monotonic_values s = some V) :
    (validate_monotonic v s V).1 = true := by
  rcases validate_monotonic_cases v s V with ⟨h1, _, _⟩ | ⟨h1, _, _, _⟩ |
    ⟨_, _, last, _, hlast, hlt⟩
  · exact h1
  · exact h1
  · rw [h] at hlast
    cases hlast
    exact absurd hlt (lt_irrefl V)

theorem validate_range_false_iff (v : SensorValidator) (s : String) (q : ℚ)
    (u : Option String) :
    (validate_range v s q u).1 = false ↔
      ∃ mm, resolved_range_spec v.custom_ranges s u = some mm ∧
        ¬(mm.1 ≤ q ∧ q ≤ mm.2) := by
  unfold validate_range resolved_range_spec
  repeat' split
  all_goals simp_all

/-! ### Claim theorems -/

/-- C3: with `enable_validation = false`, `validate_data` returns the input
mapping unchanged and the whole validator state (rolling history, monotonic
trackers, rejection counters, failure log) is identical before and after. -/
theorem C3_disabled_is_identity (v : SensorValidator) (data : List (String × Value))
    (m : Option Metadata) (h : v.enable_validation = false) :
    validate_data v data m = (data, v) := by
  unfold validate_data
  rw [if_pos (by simp [h])]

/-- Witness for C3 at a concrete disabled validator and batch. -/
theorem C3_disabled_is_identity_witness :
    (SensorValidator.init false 5 []).enable_validation = false ∧
    validate_data (SensorValidator.init false 5 [])
      [("vpv1", Value.num 2000), ("e_total", Value.nonfinite)] none =
      ([("vpv1", Value.num 2000), ("e_total", Value.nonfinite)],
        SensorValidator.init false 5 []) :=
  ⟨rfl, C3_disabled_is_identity (SensorValidator.init false 5 [])
    [("vpv1", Value.num 2000), ("e_total", Value.nonfinite)] none rfl⟩

/-- C8: a null, boolean or text value is accepted without raising: the key
appears in the output with the value unchanged, and the validator state
(history, trackers, statistics) is exactly the input state. -/
theorem C8_non_numeric_passthrough (v : SensorValidator) (s : String) (val : Value)
    (m : Option Metadata)
    (h : val = Value.null ∨ (∃ b, val = Value.bool b) ∨ ∃ t, val = Value.text t) :
    validate_data v [(s, val)] m = ([(s, val)], v) := by
  have hvv : validate_value v s val m = (true, v) := by
    rcases h with rfl | ⟨b, rfl⟩ | ⟨t, rfl⟩ <;> rfl
  have hstep : step v s val m = (true, v) := by
    rcases h with rfl | ⟨b, rfl⟩ | ⟨t, rfl⟩ <;> rfl
  by_cases he : v.enable_validation = true
  · rw [validate_data_singleton v s val m he, hvv, hstep]
    simp
  · unfold validate_data
    rw [if_pos (by simpa using he)]

/-- Witness for C8 at a concrete text value. -/
theorem C8_non_numeric_passthrough_witness :
    ((Value.text "normal") = Value.null ∨ (∃ b, Value.text "normal" = Value.bool b) ∨
      ∃ t, Value.text "normal" = Value.text t) ∧
    validate_data init_validator [("work_mode", Value.text "normal")] none =
      ([("work_mode", Value.text "normal")], init_validator) :=
  ⟨Or.inr (Or.inr ⟨"normal", rfl⟩),
    C8_non_numeric_passthrough init_validator "work_mode" (Value.text "normal") none
      (Or.inr (Or.inr ⟨"normal", rfl⟩))⟩

/-- Evaluation fact: 65535 is a Modbus sentinel. -/
theorem is_modbus_error_65535 : is_modbus_error 65535 = true := by
  norm_num [is_modbus_error, MODBUS_ERROR_VALUES]

/-- C7: a numeric value is flagged as an error sentinel iff it equals or lies
within 0.01 of one of {65535, 32767, 32768, -32768}; the check precedes unit
and range resolution (the whole pipeline result is the sentinel rejection,
independent of metadata), and 65535 on a voltage sensor is recorded as a
Modbus error even though the voltage unit range would also reject it. -/
theorem C7_modbus_sentinels :
    (∀ q : ℚ, is_modbus_error q = true ↔
      ∃ e ∈ MODBUS_ERROR_VALUES, q = e ∨ |q - e| < 1 / 100) ∧
    (∀ (v : SensorValidator) (s : String) (q : ℚ) (m : Option Metadata),
      is_modbus_error q = true →
      validate_value v s (.num q) m =
        (false, { v with stats := v.stats.record_rejection s (.num q) .modbusError })) ∧
    ((validate_value init_validator "v1" (.num 65535) none).2.stats.recent_failures =
      [⟨"v1", .num 65535, .modbusError⟩]) ∧
    (get_sensor_unit "v1" none = some "V") ∧
    ((validate_range init_validator "v1" 65535 (some "V")).1 = false) := by
  have part1 : ∀ q : ℚ, is_modbus_error q = true ↔
      ∃ e ∈ MODBUS_ERROR_VALUES, q = e ∨ |q - e| < 1 / 100 := by
    intro q
    rw [is_modbus_error]
    simp only [Bool.or_eq_true, List.any_eq_true, beq_iff_eq, decide_eq_true_eq]
    constructor
    · rintro (⟨e, he, h⟩ | ⟨e, he, h⟩)
      · exact ⟨e, he, Or.inl h⟩
      · exact ⟨e, he, Or.inr h⟩
    · rintro ⟨e, he, h | h⟩
      · exact Or.inl ⟨e, he, h⟩
      · exact Or.inr ⟨e, he, h⟩
  have part2 : ∀ (v : SensorValidator) (s : String) (q : ℚ) (m : Option Metadata),
      is_modbus_error q = true →
      validate_value v s (.num q) m =
        (false, { v with stats := v.stats.record_rejection s (.num q) .modbusError }) := by
    intro v s q m h
    simp only [validate_value]
    rw [if_pos h]
  refine ⟨part1, part2, ?_, rfl, ?_⟩
  · rw [part2 init_validator "v1" 65535 none is_modbus_error_65535]
    simp [ValidationStats.record_rejection, init_validator, SensorValidator.init,
      ValidationStats.init]
  · have h1 : dict_get init_validator.custom_ranges "v1" = none := rfl
    have h2 : dict_get SENSOR_SPECIFIC_RANGES "v1" = none := rfl
    have h3 : dict_get DEFAULT_RANGES "V" = some (0, 1000) := rfl
    iterate 3
      (try simp [validate_range, h1, h2, h3])
      (try norm_num)

/-- Witness for C7: the sentinel-rejection shape of the pipeline at 65535. -/
theorem C7_modbus_sentinels_witness :
    is_modbus_error 65535 = true ∧
    validate_value init_validator "vbat" (.num 65535) none =
      (false, { init_validator with
        stats := init_validator.stats.record_rejection "vbat" (.num 65535) .modbusError }) :=
  ⟨is_modbus_error_65535,
    C7_modbus_sentinels.2.1 init_validator "vbat" 65535 none is_modbus_error_65535⟩

/-- C5: the range check rejects iff the value lies outside the inclusive
bounds of the first applicable tier (constructor custom range, then built-in
sensor-specific table, then unit default, then no bound), later tiers never
being consulted; `battery_soc` 150 is rejected by the sensor-specific tier
(0, 100) while 42 passes the whole pipeline. -/
theorem C5_range_precedence :
    (∀ (v : SensorValidator) (s : String) (q : ℚ) (u : Option String),
      (validate_range v s q u).1 = false ↔
        ∃ mm, resolved_range_spec v.custom_ranges s u = some mm ∧
          ¬(mm.1 ≤ q ∧ q ≤ mm.2)) ∧
    (resolved_range_spec init_validator.custom_ranges "battery_soc"
        (get_sensor_unit "battery_soc" none) = some (0, 100)) ∧
    ((validate_value init_validator "battery_soc" (.num 150) none).1 = false) ∧
    ((validate_value init_validator "battery_soc" (.num 150) none).2.stats.recent_failures =
      [⟨"battery_soc", .num 150, .outOfRange .sensorSpecific 0 100⟩]) ∧
    ((validate_value init_validator "battery_soc" (.num 42) none).1 = true) := by
  refine ⟨validate_range_false_iff, rfl, ?_⟩
  have h1 : dict_get init_validator.custom_ranges "battery_soc" = none := rfl
  have h2 : dict_get SENSOR_SPECIFIC_RANGES "battery_soc" = some (0, 100) := rfl
  have hu : get_sensor_unit "battery_soc" none = some "%" := rfl
  have hm150 : is_modbus_error 150 = false := by
    norm_num [is_modbus_error, MODBUS_ERROR_VALUES, abs]
  have hm42 : is_modbus_error 42 = false := by
    norm_num [is_modbus_error, MODBUS_ERROR_VALUES, abs]
  have hmono : "battery_soc" ∉ MONOTONIC_INCREASING_SENSORS := by decide
  refine ⟨?_, ?_, ?_⟩ <;>
    iterate 4
      (try simp [validate_value, validate_range, validate_monotonic, validate_outlier,
        get_sensor_unit, ValidationStats.record_rejection, init_validator,
        SensorValidator.init, ValidationStats.init, dict_get, dict_set,
        h1, h2, hu, hm150, hm42, List.elem_iff])
      (try norm_num [MONOTONIC_INCREASING_SENSORS])

/-- Witness for C5: the general range-rejection characterization applied at
`battery_soc` with value 150 under the resolved unit "%". -/
theorem C5_range_precedence_witness :
    (validate_range init_validator "battery_soc" 150 (some "%")).1 = false :=
  (C5_range_precedence.1 init_validator "battery_soc" 150 (some "%")).mpr
    ⟨(0, 100), rfl, by norm_num⟩

/-- C6: the outlier check accepts with fewer than 3 stored values; with at
least 3 it rejects iff the near-zero-mean range test or the mean-relative
test fires, exactly as the spec formulas state; history [100, 102, 98] at
sensitivity 5 rejects 700 and accepts 150. -/
theorem C6_outlier_detector :
    (∀ (v : SensorValidator) (s : String) (q : ℚ),
      (∀ h, dict_get v.value_history s = some h → h.length < 3) →
      (validate_outlier v s q).1 = true) ∧
    (∀ (v : SensorValidator) (s : String) (q : ℚ) (h : List ℚ),
      dict_get v.value_history s = some h → 3 ≤ h.length →
      ((validate_outlier v s q).1 = false ↔
        (if |h.sum / (h.length : ℚ)| < 1 / 10 then
          |q| > (py_max h - py_min h) * v.outlier_sensitivity + max |py_max h| |py_min h|
        else
          |q - h.sum / (h.length : ℚ)| > |h.sum / (h.length : ℚ)| * v.outlier_sensitivity))) ∧
    ((validate_outlier { init_validator with value_history := [("s1", [100, 102, 98])] }
        "s1" 700).1 = false) ∧
    ((validate_outlier { init_validator with value_history := [("s1", [100, 102, 98])] }
        "s1" 150).1 = true) := by
  refine ⟨?_, ?_, ?_, ?_⟩
  · intro v s q hlt
    unfold validate_outlier
    split
    · rfl
    · rename_i history hg
      rw [if_pos (hlt history hg)]
  · intro v s q h hg h3
    unfold validate_outlier
    rw [hg]
    dsimp only
    rw [if_neg (by omega)]
    split
    · split
      · rename_i hc1
        simp [hc1]
      · rename_i hc1
        simp [hc1]
    · split
      · rename_i hc1
        simp [hc1]
      · rename_i hc1
        simp [hc1]
  · iterate 3
      (try simp [validate_outlier, dict_get, init_validator, SensorValidator.init,
        py_max, py_min])
      (try norm_num)
  · iterate 3
      (try simp [validate_outlier, dict_get, init_validator, SensorValidator.init,
        py_max, py_min])
      (try norm_num)

/-- Witness for C6: the insufficient-history rule applied at the initial
validator, and the at-least-3 characterization applied to the concrete
history [100, 102, 98] with value 700. -/
theorem C6_outlier_detector_witness :
    (∀ h, dict_get init_validator.value_history "s1" = some h → h.length < 3) ∧
    (validate_outlier init_validator "s1" 700).1 = true ∧
    (dict_get ({ init_validator with value_history := [("s1", [100, 102, 98])]
      : SensorValidator }).value_history "s1" = some [100, 102, 98]) :=
  ⟨fun h hh => by simp [init_validator, SensorValidator.init, dict_get] at hh,
   C6_outlier_detector.1 init_validator "s1" 700
     (fun h hh => by simp [init_validator, SensorValidator.init, dict_get] at hh),
   by simp [dict_get]⟩

/-- C10: when the metadata mapping is supplied and holds the sensor id, the
unit comes only from that entry's unit field; an entry without a unit yields
no resolved unit, so no unit-derived range tier applies even when the
identifier would match an inference pattern (as "vgrid9" would infer "V"). -/
theorem C10_metadata_unit_precedence :
    (∀ (s : String) (md : Metadata) (entry : MetaEntry),
      dict_get md s = some entry → get_sensor_unit s (some md) = entry.unit) ∧
    (∀ (s : String) (md : Metadata) (entry : MetaEntry),
      dict_get md s = some entry → entry.unit = none →
      ∀ (v : SensorValidator) (q : ℚ),
        dict_get v.custom_ranges s = none →
        dict_get SENSOR_SPECIFIC_RANGES s = none →
        (validate_range v s q (get_sensor_unit s (some md))).1 = true) ∧
    (infer_unit "vgrid9" = some "V") ∧
    (get_sensor_unit "vgrid9" (some [("vgrid9", ⟨none⟩)]) = none) ∧
    ((validate_range init_validator "vgrid9" 5000
        (get_sensor_unit "vgrid9" (some [("vgrid9", ⟨none⟩)]))).1 = true) := by
  have part1 : ∀ (s : String) (md : Metadata) (entry : MetaEntry),
      dict_get md s = some entry → get_sensor_unit s (some md) = entry.unit := by
    intro s md entry hget
    unfold get_sensor_unit
    dsimp only
    rw [hget]
  refine ⟨part1, ?_, rfl, rfl, rfl⟩
  intro s md entry hget hnone v q hc hs
  have hu : get_sensor_unit s (some md) = none := by rw [part1 s md entry hget, hnone]
  rw [hu]
  unfold validate_range
  rw [hc]
  dsimp only
  rw [hs]

/-- Witness for C10: a concrete metadata entry without a unit field for
"vgrid9" suppresses both inference and the unit range tier, so 5000 passes
the range check. -/
theorem C10_metadata_unit_precedence_witness :
    dict_get ([("vgrid9", ⟨none⟩)] : Metadata) "vgrid9" = some ⟨none⟩ ∧
    (validate_range init_validator "vgrid9" 5000
      (get_sensor_unit "vgrid9" (some [("vgrid9", ⟨none⟩)]))).1 = true :=
  ⟨rfl, C10_metadata_unit_precedence.2.1 "vgrid9" [("vgrid9", ⟨none⟩)] ⟨none⟩ rfl rfl
    init_validator 5000 rfl rfl⟩

/-! ### Concrete evaluation facts shared by the scenario proofs -/

theorem infer_unit_e_total : infer_unit "e_total" = some "kWh" := rfl

theorem spec_range_e_total : dict_get SENSOR_SPECIFIC_RANGES "e_total" = none := rfl

theorem default_range_kWh : dict_get DEFAULT_RANGES "kWh" = some (0, 100000) := rfl

theorem mono_mem_e_total : "e_total" ∈ MONOTONIC_INCREASING_SENSORS := by decide

theorem infer_unit_sensor : infer_unit "sensor" = none := rfl

theorem spec_range_sensor : dict_get SENSOR_SPECIFIC_RANGES "sensor" = none := rfl

theorem mono_notmem_sensor : "sensor" ∉ MONOTONIC_INCREASING_SENSORS := by decide

theorem is_modbus_error_98 : is_modbus_error 98 = false := by
  norm_num [is_modbus_error, MODBUS_ERROR_VALUES, abs]

theorem is_modbus_error_100 : is_modbus_error 100 = false := by
  norm_num [is_modbus_error, MODBUS_ERROR_VALUES, abs]

theorem is_modbus_error_102 : is_modbus_error 102 = false := by
  norm_num [is_modbus_error, MODBUS_ERROR_VALUES, abs]

theorem is_modbus_error_103 : is_modbus_error 103 = false := by
  norm_num [is_modbus_error, MODBUS_ERROR_VALUES, abs]

theorem is_modbus_error_105 : is_modbus_error 105 = false := by
  norm_num [is_modbus_error, MODBUS_ERROR_VALUES, abs]

theorem is_modbus_error_110 : is_modbus_error 110 = false := by
  norm_num [is_modbus_error, MODBUS_ERROR_VALUES, abs]

theorem is_modbus_error_700 : is_modbus_error 700 = false := by
  norm_num [is_modbus_error, MODBUS_ERROR_VALUES, abs]

/-- C4: once a monotonic sensor has accepted V, any later submission below V
is rejected (across any interleaved batches); a value equal to the retained
tracker value passes the monotonic check (strict comparison); and the
e_total scenario 100, 105, 103-rejected, 105-accepted, 110-accepted holds
from a fresh validator. -/
theorem C4_monotonic_regression :
    (∀ (v : SensorValidator) (s : String) (V w : ℚ) (m1 m2 : Option Metadata)
        (bs : List (List (String × Value) × Option Metadata)),
      v.enable_validation = true →
      s ∈ MONOTONIC_INCREASING_SENSORS →
      (validate_data v [(s, Value.num V)] m1).1 ≠ [] →
      w < V →
      (validate_data (run_batches (validate_data v [(s, Value.num V)] m1).2 bs)
        [(s, Value.num w)] m2).1 = []) ∧
    (∀ (v : SensorValidator) (s : String) (V : ℚ),
      dict_get v.last_monotonic_values s = some V →
      (validate_monotonic v s V).1 = true) ∧
    ((validate_data init_validator [("e_total", Value.num 100)] none).1 =
        [("e_total", Value.num 100)] ∧
      (validate_data (validate_data init_validator [("e_total", Value.num 100)] none).2
          [("e_total", Value.num 105)] none).1 = [("e_total", Value.num 105)] ∧
      (validate_data (validate_data (validate_data init_validator
          [("e_total", Value.num 100)] none).2 [("e_total", Value.num 105)] none).2
          [("e_total", Value.num 103)] none).1 = [] ∧
      (validate_data (validate_data (validate_data (validate_data init_validator
          [("e_total", Value.num 100)] none).2 [("e_total", Value.num 105)] none).2
          [("e_total", Value.num 103)] none).2 [("e_total", Value.num 105)] none).1 =
        [("e_total", Value.num 105)] ∧
      (validate_data (validate_data (validate_data (validate_data (validate_data
          init_validator [("e_total", Value.num 100)] none).2
          [("e_total", Value.num 105)] none).2 [("e_total", Value.num 103)] none).2
          [("e_total", Value.num 105)] none).2 [("e_total", Value.num 110)] none).1 =
        [("e_total", Value.num 110)]) := by
  refine ⟨?_, validate_monotonic_self, ?_⟩
  · intro v s V w m1 m2 bs he hmem hacc hw
    have hacc' : (validate_value v s (.num V) m1).1 = true :=
      validate_data_singleton_accept v s (.num V) m1 he hacc
    have hstate : (validate_data v [(s, .num V)] m1).2 = (step v s (.num V) m1).2 := by
      rw [validate_data_singleton v s (.num V) m1 he]
    have htr : dict_get (validate_data v [(s, .num V)] m1).2.last_monotonic_values s =
        some V := by
      rw [hstate]
      exact step_accept_tracker v s V m1 hmem hacc'
    obtain ⟨y, hy, hVy⟩ := run_batches_tracker_mono bs _ s V htr
    have he2 : (run_batches (validate_data v [(s, .num V)] m1).2 bs).enable_validation =
        true := by
      rw [run_batches_enable, validate_data_enable]
      exact he
    exact validate_data_singleton_reject _ s (.num w) m2 he2
      (validate_value_reject_below _ s w y m2 hmem hy (lt_of_lt_of_le hw hVy))
  · have h1 : validate_data init_validator [("e_total", Value.num 100)] none =
        ([("e_total", Value.num 100)],
         { enable_validation := true, outlier_sensitivity := 5, custom_ranges := [],
           stats := ValidationStats.init,
           value_history := [("e_total", [100])], max_history := 10,
           last_monotonic_values := [("e_total", 100)] }) := by
      iterate 4
        (try norm_num [validate_data, validate_items, step, validate_value, validate_range,
          validate_monotonic, validate_outlier, update_history, get_sensor_unit,
          ValidationStats.record_rejection, init_validator, SensorValidator.init,
          py_max, py_min, dict_get, dict_set, infer_unit_e_total, spec_range_e_total,
          default_range_kWh, mono_mem_e_total, is_modbus_error_100, abs])
        (try simp [dict_get, dict_set, ValidationStats.init, mono_mem_e_total])
    have h2 : validate_data
        { enable_validation := true, outlier_sensitivity := (5:ℚ), custom_ranges := [],
          stats := ValidationStats.init,
          value_history := [("e_total", [100])], max_history := 10,
          last_monotonic_values := [("e_total", 100)] }
        [("e_total", Value.num 105)] none =
        ([("e_total", Value.num 105)],
         { enable_validation := true, outlier_sensitivity := 5, custom_ranges := [],
           stats := ValidationStats.init,
           value_history := [("e_total", [100, 105])], max_history := 10,
           last_monotonic_values := [("e_total", 105)] }) := by
      iterate 4
        (try norm_num [validate_data, validate_items, step, validate_value, validate_range,
          validate_monotonic, validate_outlier, update_history, get_sensor_unit,
          ValidationStats.record_rejection, init_validator, SensorValidator.init,
          py_max, py_min, dict_get, dict_set, infer_unit_e_total, spec_range_e_total,
          default_range_kWh, mono_mem_e_total, is_modbus_error_105, abs])
        (try simp [dict_get, dict_set, ValidationStats.init, mono_mem_e_total])
    have h3 : validate_data
        { enable_validation := true, outlier_sensitivity := (5:ℚ), custom_ranges := [],
          stats := ValidationStats.init,
          value_history := [("e_total", [100, 105])], max_history := 10,
          last_monotonic_values := [("e_total", 105)] }
        [("e_total", Value.num 103)] none =
        ([],
         { enable_validation := true, outlier_sensitivity := 5, custom_ranges := [],
           stats := { rejected_count := [("e_total", 1)],
                      recent_failures :=
                        [⟨"e_total", Value.num 103, .monotonicRegression 105 103⟩],
                      max_recent_failures := 50 },
           value_history := [("e_total", [100, 105])], max_history := 10,
           last_monotonic_values := [("e_total", 105)] }) := by
      iterate 4
        (try norm_num [validate_data, validate_items, step, validate_value, validate_range,
          validate_monotonic, validate_outlier, update_history, get_sensor_unit,
          ValidationStats.record_rejection, init_validator, SensorValidator.init,
          py_max, py_min, dict_get, dict_set, infer_unit_e_total, spec_range_e_total,
          default_range_kWh, mono_mem_e_total, is_modbus_error_103, abs])
        (try simp [dict_get, dict_set, ValidationStats.init, mono_mem_e_total])
    have h4 : validate_data
        { enable_validation := true, outlier_sensitivity := (5:ℚ), custom_ranges := [],
          stats := { rejected_count := [("e_total", 1)],
                     recent_failures :=
                       [⟨"e_total", Value.num 103, .monotonicRegression 105 103⟩],
                     max_recent_failures := 50 },
          value_history := [("e_total", [100, 105])], max_history := 10,
          last_monotonic_values := [("e_total", 105)] }
        [("e_total", Value.num 105)] none =
        ([("e_total", Value.num 105)],
         { enable_validation := true, outlier_sensitivity := 5, custom_ranges := [],
           stats := { rejected_count := [("e_total", 1)],
                      recent_failures :=
                        [⟨"e_total", Value.num 103, .monotonicRegression 105 103⟩],
                      max_recent_failures := 50 },
           value_history := [("e_total", [100, 105, 105])], max_history := 10,
           last_monotonic_values := [("e_total", 105)] }) := by
      iterate 4
        (try norm_num [validate_data, validate_items, step, validate_value, validate_range,
          validate_monotonic, validate_outlier, update_history, get_sensor_unit,
          ValidationStats.record_rejection, init_validator, SensorValidator.init,
          py_max, py_min, dict_get, dict_set, infer_unit_e_total, spec_range_e_total,
          default_range_kWh, mono_mem_e_total, is_modbus_error_105, abs])
        (try simp [dict_get, dict_set, ValidationStats.init, mono_mem_e_total])
    have h5 : validate_data
        { enable_validation := true, outlier_sensitivity := (5:ℚ), custom_ranges := [],
          stats := { rejected_count := [("e_total", 1)],
                     recent_failures :=
                       [⟨"e_total", Value.num 103, .monotonicRegression 105 103⟩],
                     max_recent_failures := 50 },
          value_history := [("e_total", [100, 105, 105])], max_history := 10,
          last_monotonic_values := [("e_total", 105)] }
        [("e_total", Value.num 110)] none =
        ([("e_total", Value.num 110)],
         { enable_validation := true, outlier_sensitivity := 5, custom_ranges := [],
           stats := { rejected_count := [("e_total", 1)],
                      recent_failures :=
                        [⟨"e_total", Value.num 103, .monotonicRegression 105 103⟩],
                      max_recent_failures := 50 },
           value_history := [("e_total", [100, 105, 105, 110])], max_history := 10,
           last_monotonic_values := [("e_total", 110)] }) := by
      iterate 4
        (try norm_num [validate_data, validate_items, step, validate_value, validate_range,
          validate_monotonic, validate_outlier, update_history, get_sensor_unit,
          ValidationStats.record_rejection, init_validator, SensorValidator.init,
          py_max, py_min, dict_get, dict_set, infer_unit_e_total, spec_range_e_total,
          default_range_kWh, mono_mem_e_total, is_modbus_error_110, abs])
        (try simp [dict_get, dict_set, ValidationStats.init, mono_mem_e_total])
    refine ⟨?_, ?_, ?_, ?_, ?_⟩ <;> simp only [h1, h2, h3, h4, h5]

theorem is_modbus_error_42 : is_modbus_error 42 = false := by
  norm_num [is_modbus_error, MODBUS_ERROR_VALUES, abs]

/-- Counterexample to C1 as stated: sensor "sensor" is not monotonic, 700 is
finite, matches no sentinel (nor within 0.01), and lies inside the resolved
range (no range tier applies, so the range check passes), yet after the
accepted history 100, 102, 98 the value 700 is rejected by the outlier check
and the key is absent from the output. -/
theorem C1_counterexample :
    "sensor" ∉ MONOTONIC_INCREASING_SENSORS ∧
    is_modbus_error 700 = false ∧
    resolved_range_spec (validate_data (validate_data (validate_data init_validator
        [("sensor", Value.num 100)] none).2 [("sensor", Value.num 102)] none).2
        [("sensor", Value.num 98)] none).2.custom_ranges "sensor"
      (get_sensor_unit "sensor" none) = none ∧
    (validate_range (validate_data (validate_data (validate_data init_validator
        [("sensor", Value.num 100)] none).2 [("sensor", Value.num 102)] none).2
        [("sensor", Value.num 98)] none).2 "sensor" 700
      (get_sensor_unit "sensor" none)).1 = true ∧
    (validate_data (validate_data (validate_data (validate_data init_validator
        [("sensor", Value.num 100)] none).2 [("sensor", Value.num 102)] none).2
        [("sensor", Value.num 98)] none).2 [("sensor", Value.num 700)] none).1 = [] := by
  have h1 : validate_data init_validator [("sensor", Value.num 100)] none =
      ([("sensor", Value.num 100)],
       { enable_validation := true, outlier_sensitivity := 5, custom_ranges := [],
         stats := ValidationStats.init,
         value_history := [("sensor", [100])], max_history := 10,
         last_monotonic_values := [] }) := by
    iterate 4
      (try norm_num [validate_data, validate_items, step, validate_value, validate_range,
        validate_monotonic, validate_outlier, update_history, get_sensor_unit,
        ValidationStats.record_rejection, init_validator, SensorValidator.init,
        py_max, py_min, dict_get, dict_set, infer_unit_sensor, spec_range_sensor,
        is_modbus_error_100, abs])
      (try simp [dict_get, dict_set, ValidationStats.init, MONOTONIC_INCREASING_SENSORS])
  have h2 : validate_data
      { enable_validation := true, outlier_sensitivity := (5:ℚ), custom_ranges := [],
        stats := ValidationStats.init,
        value_history := [("sensor", [100])], max_history := 10,
        last_monotonic_values := [] }
      [("sensor", Value.num 102)] none =
      ([("sensor", Value.num 102)],
       { enable_validation := true, outlier_sensitivity := 5, custom_ranges := [],
         stats := ValidationStats.init,
         value_history := [("sensor", [100, 102])], max_history := 10,
         last_monotonic_values := [] }) := by
    iterate 4
      (try norm_num [validate_data, validate_items, step, validate_value, validate_range,
        validate_monotonic, validate_outlier, update_history, get_sensor_unit,
        ValidationStats.record_rejection, init_validator, SensorValidator.init,
        py_max, py_min, dict_get, dict_set, infer_unit_sensor, spec_range_sensor,
        is_modbus_error_102, abs])
      (try simp [dict_get, dict_set, ValidationStats.init, MONOTONIC_INCREASING_SENSORS])
  have h3 : validate_data
      { enable_validation := true, outlier_sensitivity := (5:ℚ), custom_ranges := [],
        stats := ValidationStats.init,
        value_history := [("sensor", [100, 102])], max_history := 10,
        last_monotonic_values := [] }
      [("sensor", Value.num 98)] none =
      ([("sensor", Value.num 98)],
       { enable_validation := true, outlier_sensitivity := 5, custom_ranges := [],
         stats := ValidationStats.init,
         value_history := [("sensor", [100, 102, 98])], max_history := 10,
         last_monotonic_values := [] }) := by
    iterate 4
      (try norm_num [validate_data, validate_items, step, validate_value, validate_range,
        validate_monotonic, validate_outlier, update_history, get_sensor_unit,
        ValidationStats.record_rejection, init_validator, SensorValidator.init,
        py_max, py_min, dict_get, dict_set, infer_unit_sensor, spec_range_sensor,
        is_modbus_error_98, abs])
      (try simp [dict_get, dict_set, ValidationStats.init, MONOTONIC_INCREASING_SENSORS])
  have h4 : validate_data
      { enable_validation := true, outlier_sensitivity := (5:ℚ), custom_ranges := [],
        stats := ValidationStats.init,
        value_history := [("sensor", [100, 102, 98])], max_history := 10,
        last_monotonic_values := [] }
      [("sensor", Value.num 700)] none =
      ([],
       { enable_validation := true, outlier_sensitivity := 5, custom_ranges := [],
         stats := { rejected_count := [("sensor", 1)],
                    recent_failures := [⟨"sensor", Value.num 700, .outlier⟩],
                    max_recent_failures := 50 },
         value_history := [("sensor", [100, 102, 98])], max_history := 10,
         last_monotonic_values := [] }) := by
    iterate 4
      (try norm_num [validate_data, validate_items, step, validate_value, validate_range,
        validate_monotonic, validate_outlier, update_history, get_sensor_unit,
        ValidationStats.record_rejection, init_validator, SensorValidator.init,
        py_max, py_min, dict_get, dict_set, infer_unit_sensor, spec_range_sensor,
        is_modbus_error_700, abs])
      (try simp [dict_get, dict_set, ValidationStats.init, MONOTONIC_INCREASING_SENSORS])
  refine ⟨by decide, is_modbus_error_700, ?_, ?_, ?_⟩ <;> simp only [h1, h2, h3, h4] <;> rfl

/-- C1 amended: a finite numeric value on a non-monotonic sensor that matches
no error sentinel, passes the range check for its resolved unit, and
additionally passes the outlier check against the sensor's stored history,
is accepted (the key appears in the output with its value). -/
theorem C1_amended_nonmonotonic_accept (v : SensorValidator) (s : String) (q : ℚ)
    (m : Option Metadata)
    (hmono : s ∉ MONOTONIC_INCREASING_SENSORS)
    (hsent : is_modbus_error q = false)
    (hrange : (validate_range v s q (get_sensor_unit s m)).1 = true)
    (houtlier : (validate_outlier v s q).1 = true) :
    (validate_data v [(s, Value.num q)] m).1 = [(s, Value.num q)] := by
  by_cases he : v.enable_validation = true
  · have hrs := validate_range_true v s q (get_sensor_unit s m) hrange
    have hmn := validate_monotonic_notmem v s q hmono
    have hacc : (validate_value v s (.num q) m).1 = true := by
      have e : validate_value v s (.num q) m =
          (if is_modbus_error q then
            (false, { v with stats := v.stats.record_rejection s (.num q) .modbusError })
          else
            if ¬(validate_range v s q (get_sensor_unit s m)).1 then
              (false, (validate_range v s q (get_sensor_unit s m)).2)
            else
              if ¬(validate_monotonic (validate_range v s q (get_sensor_unit s m)).2 s q).1 then
                (false, (validate_monotonic (validate_range v s q (get_sensor_unit s m)).2 s q).2)
              else
                if ¬(validate_outlier
                      (validate_monotonic (validate_range v s q (get_sensor_unit s m)).2 s q).2
                      s q).1 then
                  (false, (validate_outlier
                    (validate_monotonic (validate_range v s q (get_sensor_unit s m)).2 s q).2
                    s q).2)
                else
                  (true, (validate_outlier
                    (validate_monotonic (validate_range v s q (get_sensor_unit s m)).2 s q).2
                    s q).2)) := rfl
      rw [e]
      simp [hsent, hrange, hrs, hmn, houtlier]
    rw [validate_data_singleton v s (.num q) m he, hacc]
    simp
  · unfold validate_data
    rw [if_pos (by simpa using he)]

/-- Witness for C1 amended: the fresh validator accepts 42 on the
non-monotonic, unit-less sensor "sensor". -/
theorem C1_amended_nonmonotonic_accept_witness :
    "sensor" ∉ MONOTONIC_INCREASING_SENSORS ∧
    is_modbus_error 42 = false ∧
    (validate_range init_validator "sensor" 42 (get_sensor_unit "sensor" none)).1 = true ∧
    (validate_outlier init_validator "sensor" 42).1 = true ∧
    (validate_data init_validator [("sensor", Value.num 42)] none).1 =
      [("sensor", Value.num 42)] :=
  ⟨by decide, is_modbus_error_42, rfl, rfl,
    C1_amended_nonmonotonic_accept init_validator "sensor" 42 none (by decide)
      is_modbus_error_42 rfl rfl⟩

theorem is_modbus_error_101 : is_modbus_error 101 = false := by
  norm_num [is_modbus_error, MODBUS_ERROR_VALUES, abs]

/-- Counterexample to C2 as stated: after "e_total" accepts 100, 101, 102
(tracker 102), submitting 700 is rejected by the outlier check, yet the
monotonic tracker has been advanced to 700 by the earlier monotonic step —
a rejected value updated the tracker. -/
theorem C2_counterexample :
    (validate_data (validate_data (validate_data init_validator
        [("e_total", Value.num 100)] none).2 [("e_total", Value.num 101)] none).2
        [("e_total", Value.num 102)] none).2.last_monotonic_values =
      [("e_total", 102)] ∧
    (validate_data (validate_data (validate_data (validate_data init_validator
        [("e_total", Value.num 100)] none).2 [("e_total", Value.num 101)] none).2
        [("e_total", Value.num 102)] none).2 [("e_total", Value.num 700)] none).1 = [] ∧
    (validate_data (validate_data (validate_data (validate_data init_validator
        [("e_total", Value.num 100)] none).2 [("e_total", Value.num 101)] none).2
        [("e_total", Value.num 102)] none).2
        [("e_total", Value.num 700)] none).2.last_monotonic_values =
      [("e_total", 700)] := by
  have h1 : validate_data init_validator [("e_total", Value.num 100)] none =
      ([("e_total", Value.num 100)],
       { enable_validation := true, outlier_sensitivity := 5, custom_ranges := [],
         stats := ValidationStats.init,
         value_history := [("e_total", [100])], max_history := 10,
         last_monotonic_values := [("e_total", 100)] }) := by
    iterate 4
      (try norm_num [validate_data, validate_items, step, validate_value, validate_range,
        validate_monotonic, validate_outlier, update_history, get_sensor_unit,
        ValidationStats.record_rejection, init_validator, SensorValidator.init,
        py_max, py_min, dict_get, dict_set, infer_unit_e_total, spec_range_e_total,
        default_range_kWh, mono_mem_e_total, is_modbus_error_100, abs])
      (try simp [dict_get, dict_set, ValidationStats.init, mono_mem_e_total])
  have h2 : validate_data
      { enable_validation := true, outlier_sensitivity := (5:ℚ), custom_ranges := [],
        stats := ValidationStats.init,
        value_history := [("e_total", [100])], max_history := 10,
        last_monotonic_values := [("e_total", 100)] }
      [("e_total", Value.num 101)] none =
      ([("e_total", Value.num 101)],
       { enable_validation := true, outlier_sensitivity := 5, custom_ranges := [],
         stats := ValidationStats.init,
         value_history := [("e_total", [100, 101])], max_history := 10,
         last_monotonic_values := [("e_total", 101)] }) := by
    iterate 4
      (try norm_num [validate_data, validate_items, step, validate_value, validate_range,
        validate_monotonic, validate_outlier, update_history, get_sensor_unit,
        ValidationStats.record_rejection, init_validator, SensorValidator.init,
        py_max, py_min, dict_get, dict_set, infer_unit_e_total, spec_range_e_total,
        default_range_kWh, mono_mem_e_total, is_modbus_error_101, abs])
      (try simp [dict_get, dict_set, ValidationStats.init, mono_mem_e_total])
  have h3 : validate_data
      { enable_validation := true, outlier_sensitivity := (5:ℚ), custom_ranges := [],
        stats := ValidationStats.init,
        value_history := [("e_total", [100, 101])], max_history := 10,
        last_monotonic_values := [("e_total", 101)] }
      [("e_total", Value.num 102)] none =
      ([("e_total", Value.num 102)],
       { enable_validation := true, outlier_sensitivity := 5, custom_ranges := [],
         stats := ValidationStats.init,
         value_history := [("e_total", [100, 101, 102])], max_history := 10,
         last_monotonic_values := [("e_total", 102)] }) := by
    iterate 4
      (try norm_num [validate_data, validate_items, step, validate_value, validate_range,
        validate_monotonic, validate_outlier, update_history, get_sensor_unit,
        ValidationStats.record_rejection, init_validator, SensorValidator.init,
        py_max, py_min, dict_get, dict_set, infer_unit_e_total, spec_range_e_total,
        default_range_kWh, mono_mem_e_total, is_modbus_error_102, abs])
      (try simp [dict_get, dict_set, ValidationStats.init, mono_mem_e_total])
  have h4 : validate_data
      { enable_validation := true, outlier_sensitivity := (5:ℚ), custom_ranges := [],
        stats := ValidationStats.init,
        value_history := [("e_total", [100, 101, 102])], max_history := 10,
        last_monotonic_values := [("e_total", 102)] }
      [("e_total", Value.num 700)] none =
      ([],
       { enable_validation := true, outlier_sensitivity := 5, custom_ranges := [],
         stats := { rejected_count := [("e_total", 1)],
                    recent_failures := [⟨"e_total", Value.num 700, .outlier⟩],
                    max_recent_failures := 50 },
         value_history := [("e_total", [100, 101, 102])], max_history := 10,
         last_monotonic_values := [("e_total", 700)] }) := by
    iterate 4
      (try norm_num [validate_data, validate_items, step, validate_value, validate_range,
        validate_monotonic, validate_outlier, update_history, get_sensor_unit,
        ValidationStats.record_rejection, init_validator, SensorValidator.init,
        py_max, py_min, dict_get, dict_set, infer_unit_e_total, spec_range_e_total,
        default_range_kWh, mono_mem_e_total, is_modbus_error_700, abs])
      (try simp [dict_get, dict_set, ValidationStats.init, mono_mem_e_total])
  refine ⟨?_, ?_, ?_⟩ <;> simp only [h1, h2, h3, h4]

/-- C2 amended: when a value is rejected the rolling history is unchanged,
and the monotonic tracker is unchanged unless the sensor is monotonic and
the numeric value passed the monotonic check before a later check rejected
it, in which case exactly that sensor's tracker is set to the rejected
value. -/
theorem C2_amended_reject_state (v : SensorValidator) (s : String) (val : Value)
    (m : Option Metadata)
    (hrej : (validate_data v [(s, val)] m).1 = []) :
    (validate_data v [(s, val)] m).2.value_history = v.value_history ∧
    ((validate_data v [(s, val)] m).2.last_monotonic_values = v.last_monotonic_values ∨
      ∃ q, val = Value.num q ∧ s ∈ MONOTONIC_INCREASING_SENSORS ∧
        (validate_data v [(s, val)] m).2.last_monotonic_values =
          dict_set v.last_monotonic_values s q) := by
  by_cases he : v.enable_validation = true
  · have hrej' : (validate_value v s val m).1 = false := by
      by_cases h : (validate_value v s val m).1 = true
      · rw [validate_data_singleton v s val m he, h] at hrej
        simp at hrej
      · simpa using h
    have hstep : (step v s val m).2 = (validate_value v s val m).2 := by
      unfold step
      dsimp only
      rw [if_neg (by simp [hrej'])]
    have hsnd : (validate_data v [(s, val)] m).2 = (validate_value v s val m).2 := by
      rw [validate_data_singleton v s val m he, hstep]
    rcases validate_value_cases v s val m with ⟨h1, _⟩ |
      ⟨_, fval, r, hh | ⟨q, hq, hmem, hh, _⟩⟩
    · rw [hrej'] at h1; cases h1
    · constructor
      · rw [hsnd, validate_value_value_history]
      · exact Or.inl (by rw [hsnd, hh])
    · constructor
      · rw [hsnd, validate_value_value_history]
      · exact Or.inr ⟨q, hq, hmem, by rw [hsnd, hh]⟩
  · exfalso
    unfold validate_data at hrej
    rw [if_pos (by simpa using he)] at hrej
    simp at hrej

/-- Witness for C2 amended: a non-finite value on a fresh validator is
rejected, and both history and tracker are untouched. -/
theorem C2_amended_reject_state_witness :
    (validate_data init_validator [("x", Value.nonfinite)] none).1 = [] ∧
    (validate_data init_validator [("x", Value.nonfinite)] none).2.value_history =
      init_validator.value_history ∧
    ((validate_data init_validator [("x", Value.nonfinite)] none).2.last_monotonic_values =
        init_validator.last_monotonic_values ∨
      ∃ q, Value.nonfinite = Value.num q ∧ "x" ∈ MONOTONIC_INCREASING_SENSORS ∧
        (validate_data init_validator
          [("x", Value.nonfinite)] none).2.last_monotonic_values =
          dict_set init_validator.last_monotonic_values "x" q) :=
  ⟨rfl, (C2_amended_reject_state init_validator "x" Value.nonfinite none rfl).1,
    (C2_amended_reject_state init_validator "x" Value.nonfinite none rfl).2⟩

theorem validate_data_max_history (v : SensorValidator) (data : List (String × Value))
    (m : Option Metadata) :
    (validate_data v data m).2.max_history = v.max_history := by
  unfold validate_data
  split
  · rfl
  · exact validate_items_max_history data v m

theorem validate_data_max_failures (v : SensorValidator) (data : List (String × Value))
    (m : Option Metadata) :
    (validate_data v data m).2.stats.max_recent_failures =
      v.stats.max_recent_failures := by
  unfold validate_data
  split
  · rfl
  · exact validate_items_max_failures data v m

theorem validate_data_hist_bound (v : SensorValidator) (data : List (String × Value))
    (m : Option Metadata) (n : Nat) (hmax : v.max_history = n) (hb : hist_bound n v) :
    hist_bound n (validate_data v data m).2 := by
  unfold validate_data
  split
  · exact hb
  · exact validate_items_hist_bound data v m n hmax hb

theorem validate_data_fail_len (v : SensorValidator) (data : List (String × Value))
    (m : Option Metadata) (c : Nat) (hmax : v.stats.max_recent_failures = c)
    (h : v.stats.recent_failures.length ≤ c) :
    (validate_data v data m).2.stats.recent_failures.length ≤ c := by
  unfold validate_data
  split
  · exact h
  · exact validate_items_fail_len data v m c hmax h

theorem validate_data_count_mono (v : SensorValidator) (data : List (String × Value))
    (m : Option Metadata) (t : String) :
    (dict_get v.stats.rejected_count t).getD 0 ≤
      (dict_get (validate_data v data m).2.stats.rejected_count t).getD 0 := by
  unfold validate_data
  split
  · exact le_refl _
  · exact validate_items_count_mono data v m t

theorem run_batches_hist_bound (bs : List (List (String × Value) × Option Metadata)) :
    ∀ (v : SensorValidator) (n : Nat), v.max_history = n → hist_bound n v →
      hist_bound n (run_batches v bs) := by
  induction bs with
  | nil => intro v n _ hb; exact hb
  | cons b rest ih =>
    intro v n hmax hb
    show hist_bound n (run_batches (validate_data v b.1 b.2).2 rest)
    exact ih _ n (by rw [validate_data_max_history]; exact hmax)
      (validate_data_hist_bound v b.1 b.2 n hmax hb)

theorem run_batches_fail_len (bs : List (List (String × Value) × Option Metadata)) :
    ∀ (v : SensorValidator) (c : Nat), v.stats.max_recent_failures = c →
      v.stats.recent_failures.length ≤ c →
      (run_batches v bs).stats.recent_failures.length ≤ c := by
  induction bs with
  | nil => intro v c _ h; exact h
  | cons b rest ih =>
    intro v c hmax h
    show (run_batches (validate_data v b.1 b.2).2 rest).stats.recent_failures.length ≤ c
    exact ih _ c (by rw [validate_data_max_failures]; exact hmax)
      (validate_data_fail_len v b.1 b.2 c hmax h)

theorem run_batches_count_mono (bs : List (List (String × Value) × Option Metadata)) :
    ∀ (v : SensorValidator) (t : String),
      (dict_get v.stats.rejected_count t).getD 0 ≤
        (dict_get (run_batches v bs).stats.rejected_count t).getD 0 := by
  induction bs with
  | nil => intro v t; exact le_refl _
  | cons b rest ih =>
    intro v t
    calc (dict_get v.stats.rejected_count t).getD 0
        ≤ (dict_get (validate_data v b.1 b.2).2.stats.rejected_count t).getD 0 :=
          validate_data_count_mono v b.1 b.2 t
      _ ≤ _ := ih _ t

/-- C9: with the fixed caps (history window 10, failure log 50), any sequence
of `validate_data` calls keeps every rolling history at ≤ 10 entries and the
failure log at ≤ 50 entries; at capacity, appending evicts the oldest entry
first in both buffers; and per-sensor rejection counters never decrease. -/
theorem C9_bounded_buffers :
    (∀ (v : SensorValidator) (bs : List (List (String × Value) × Option Metadata)),
      v.max_history = 10 → hist_bound 10 v → hist_bound 10 (run_batches v bs)) ∧
    (∀ (v : SensorValidator) (bs : List (List (String × Value) × Option Metadata)),
      v.stats.max_recent_failures = 50 → v.stats.recent_failures.length ≤ 50 →
      (run_batches v bs).stats.recent_failures.length ≤ 50) ∧
    (∀ (v : SensorValidator) (s : String) (q : ℚ) (h : List ℚ),
      v.max_history = 10 → dict_get v.value_history s = some h → h.length = 10 →
      dict_get (update_history v s q).value_history s = some (h.drop 1 ++ [q])) ∧
    (∀ (st : ValidationStats) (s : String) (val : Value) (r : Reason),
      st.max_recent_failures = 50 → st.recent_failures.length = 50 →
      (st.record_rejection s val r).recent_failures =
        st.recent_failures.drop 1 ++ [⟨s, val, r⟩]) ∧
    (∀ (v : SensorValidator) (bs : List (List (String × Value) × Option Metadata))
        (t : String),
      (dict_get v.stats.rejected_count t).getD 0 ≤
        (dict_get (run_batches v bs).stats.rejected_count t).getD 0) := by
  refine ⟨?_, ?_, ?_, ?_, ?_⟩
  · intro v bs hmax hb
    exact run_batches_hist_bound bs v 10 hmax hb
  · intro v bs hmax h
    exact run_batches_fail_len bs v 50 hmax h
  · intro v s q h hmax hget hfull
    exact update_history_fifo v s q h hget (by rw [hmax]; exact hfull)
      (by rw [hmax]; exact Nat.succ_pos 9)
  · intro st s val r hmax hfull
    exact record_rejection_fifo st s val r (by rw [hmax]; exact hfull)
      (by rw [hmax]; exact Nat.succ_pos 49)
  · intro v bs t
    exact run_batches_count_mono bs v t

/-- Witness for C9: the bounds at a fresh validator with no batches, and the
failure-log FIFO at a concretely full log. -/
theorem C9_bounded_buffers_witness :
    init_validator.max_history = 10 ∧
    hist_bound 10 init_validator ∧
    hist_bound 10 (run_batches init_validator []) ∧
    ({ rejected_count := [], recent_failures := List.replicate 50 ⟨"a", Value.null, .outlier⟩,
       max_recent_failures := 50 : ValidationStats }.record_rejection "a" Value.null
        .outlier).recent_failures =
      (List.replicate 50 (⟨"a", Value.null, .outlier⟩ : Failure)).drop 1 ++
        [⟨"a", Value.null, .outlier⟩] :=
  ⟨rfl, fun p hp => by simp [init_validator, SensorValidator.init] at hp,
    C9_bounded_buffers.1 init_validator [] rfl
      (fun p hp => by simp [init_validator, SensorValidator.init] at hp),
    C9_bounded_buffers.2.2.2.1
      { rejected_count := [], recent_failures := List.replicate 50 ⟨"a", Value.null, .outlier⟩,
        max_recent_failures := 50 } "a" Value.null .outlier rfl (by simp)⟩

/-- Witness for C4: applied at a fresh validator with accepted value 100 on
"e_total", no interleaved batches, and later submission 50, which is
rejected. -/
theorem C4_monotonic_regression_witness :
    init_validator.enable_validation = true ∧
    "e_total" ∈ MONOTONIC_INCREASING_SENSORS ∧
    (validate_data init_validator [("e_total", Value.num 100)] none).1 ≠ [] ∧
    ((50 : ℚ) < 100) ∧
    (validate_data (run_batches (validate_data init_validator
        [("e_total", Value.num 100)] none).2 [])
      [("e_total", Value.num 50)] none).1 = [] := by
  have h1 : (validate_data init_validator [("e_total", Value.num 100)] none).1 =
      [("e_total", Value.num 100)] := by
    iterate 4
      (try norm_num [validate_data, validate_items, step, validate_value, validate_range,
        validate_monotonic, validate_outlier, update_history, get_sensor_unit,
        ValidationStats.record_rejection, init_validator, SensorValidator.init,
        py_max, py_min, dict_get, dict_set, infer_unit_e_total, spec_range_e_total,
        default_range_kWh, mono_mem_e_total, is_modbus_error_100, abs])
      (try simp [dict_get, dict_set, ValidationStats.init, mono_mem_e_total])
  exact ⟨rfl, by decide, by simp [h1], by norm_num,
    C4_monotonic_regression.1 init_validator "e_total" 100 50 none none [] rfl
      (by decide) (by simp [h1]) (by norm_num)⟩

end Goodwe
